import Mathlib

/-
Verification of the DabbleBot cogs (CaptchaGate, DateChannel, NameUpdate)
against their natural-language specification.

The Python sources are shallowly embedded: each cog's mutable attributes
become a Lean structure, each handler or command becomes a pure function on
that structure, and the host framework's side effects (message sends, role
grants, guild kicks) are reflected either as explicit output components or
as ghost fields recording that the effect was requested.  Discord ids are
Nat, timestamps (time.time in Python) are Int, and Python dicts keyed by id
are association lists in insertion order, which matches the iteration order
of a Python dict.
-/

namespace NameUpdate

/-- A Discord voice channel, reduced to the one attribute the cog reads and
writes (channel.name, via channel.edit). -/
structure VoiceChannel where
  name : String
  deriving DecidableEq, Repr

/-- The mutable attributes of VoiceChannelNameUpdater (NameUpdate.py lines
5-12): the fixed name list, the rotation index, and the tracked channel
(None until on_ready or create_voice_channel finds or creates one). -/
structure NameUpdaterState where
  channel_name_list : List String
  current_name_index : Nat
  voice_channel : Option VoiceChannel
  deriving DecidableEq, Repr

/-- Default used by List.getD below; Python indexing never reaches it
because the index is always reduced modulo the list length first. -/
def defaultName : String := ""

/-- The state built by VoiceChannelNameUpdater.__init__ (NameUpdate.py lines
5-12): six names, index 0, no channel tracked yet. -/
def initState : NameUpdaterState :=
  { channel_name_list :=
      ["Welcome Room", "Chill Zone", "Lounge", "Gaming Room", "Music Time", "Study Area"],
    current_name_index := 0,
    voice_channel := none }

/-- One tick of the update_name task (NameUpdate.py lines 23-30).  If no
voice channel is tracked the body does nothing.  Otherwise the index is
advanced by one modulo the list length, and the channel is renamed to the
name at the new index unless it already has that name.  The second
component is the name passed to channel.edit, or none when no edit call
was made. -/
def update_name (s : NameUpdaterState) : NameUpdaterState × Option String :=
  match s.voice_channel with
  | none => (s, none)
  | some ch =>
    let i := (s.current_name_index + 1) % s.channel_name_list.length
    let new_name := s.channel_name_list.getD i defaultName
    if ch.name = new_name then
      ({ s with current_name_index := i }, none)
    else
      ({ s with current_name_index := i, voice_channel := some { ch with name := new_name } },
       some new_name)

/-- The state part of one update_name tick. -/
def tickState (s : NameUpdaterState) : NameUpdaterState := (update_name s).1

/-- The cog operations that can run between ticks, as far as they touch the
rotator's state: the set_channel_names command (NameUpdate.py lines 39-46),
which replaces the list only when at least one name was supplied, and the
on_ready listener / create_voice_channel command (lines 14-21 and 32-37),
which find or create a channel carrying the name at the current index. -/
inductive RotatorOp
  | tick
  | set_channel_names (names : List String)
  | attach_channel
  deriving DecidableEq, Repr

/-- Effect of one operation on the rotator state. -/
def applyOp (s : NameUpdaterState) (op : RotatorOp) : NameUpdaterState :=
  match op with
  | .tick => tickState s
  | .set_channel_names names =>
      if names.isEmpty then s else { s with channel_name_list := names }
  | .attach_channel =>
      let found : VoiceChannel :=
        VoiceChannel.mk (s.channel_name_list.getD s.current_name_index defaultName)
      { s with voice_channel := some found }

/-- Running a sequence of operations from the initial state. -/
def runOps (ops : List RotatorOp) : NameUpdaterState :=
  ops.foldl applyOp initState

theorem tick_advance (s : NameUpdaterState) (ch : VoiceChannel)
    (h : s.voice_channel = some ch) :
    (tickState s).current_name_index =
        (s.current_name_index + 1) % s.channel_name_list.length
      ∧ (tickState s).channel_name_list = s.channel_name_list
      ∧ (tickState s).voice_channel =
          some ⟨s.channel_name_list.getD
            ((s.current_name_index + 1) % s.channel_name_list.length) defaultName⟩ := by
  unfold tickState update_name
  rw [h]
  simp only
  by_cases hname :
      ch.name = s.channel_name_list.getD
        ((s.current_name_index + 1) % s.channel_name_list.length) defaultName
  · rw [if_pos hname]
    refine ⟨rfl, rfl, ?_⟩
    cases ch
    simp_all
  · rw [if_neg hname]
    exact ⟨rfl, rfl, rfl⟩

theorem tick_iterate (s : NameUpdaterState) (ch : VoiceChannel)
    (h : s.voice_channel = some ch) :
    ∀ k : Nat,
      (tickState^[k + 1] s).channel_name_list = s.channel_name_list
        ∧ (tickState^[k + 1] s).voice_channel =
            some ⟨s.channel_name_list.getD
              ((s.current_name_index + (k + 1)) % s.channel_name_list.length) defaultName⟩
        ∧ (tickState^[k + 1] s).current_name_index =
            (s.current_name_index + (k + 1)) % s.channel_name_list.length := by
  intro k
  induction k with
  | zero =>
    obtain ⟨h1, h2, h3⟩ := tick_advance s ch h
    exact ⟨h2, h3, h1⟩
  | succ k ih =>
    obtain ⟨ih1, ih2, ih3⟩ := ih
    obtain ⟨hs1, hs2, hs3⟩ := tick_advance (tickState^[k + 1] s) _ ih2
    have hiter : tickState^[k + 1 + 1] s = tickState (tickState^[k + 1] s) :=
      Function.iterate_succ_apply' tickState (k + 1) s
    have harith : s.current_name_index + (k + 1) + 1 = s.current_name_index + (k + 1 + 1) := by
      omega
    refine ⟨?_, ?_, ?_⟩
    · rw [hiter, hs2, ih1]
    · rw [hiter, hs3, ih1, ih3, Nat.mod_add_mod, harith]
    · rw [hiter, hs1, ih1, ih3, Nat.mod_add_mod, harith]

theorem tickState_channel_name_list (s : NameUpdaterState) :
    (tickState s).channel_name_list = s.channel_name_list := by
  unfold tickState update_name
  cases hvc : s.voice_channel with
  | none => simp only [hvc]
  | some ch =>
    simp only [hvc]
    split <;> rfl

theorem mod_shift_inj (n a k₁ k₂ : Nat) (h₁ : k₁ < n) (h₂ : k₂ < n)
    (h : (a + (k₁ + 1)) % n = (a + (k₂ + 1)) % n) : k₁ = k₂ := by
  have hmod : a + (k₁ + 1) ≡ a + (k₂ + 1) [MOD n] := h
  have hc1 := Nat.ModEq.add_left_cancel' a hmod
  have hc2 := Nat.ModEq.add_right_cancel' 1 hc1
  have h3 : k₁ % n = k₂ % n := hc2
  rw [Nat.mod_eq_of_lt h₁, Nat.mod_eq_of_lt h₂] at h3
  exact h3

/-- C5 counterexample: the claim says every tick of update_name advances the
current index by exactly one modulo the list length, but a tick taken while
no voice channel is tracked yet (the state built by __init__, which persists
until on_ready runs) leaves the index unchanged: from index 0 with the
six-name list the claim requires the new index (0 + 1) % 6 = 1, while the
code produces 0. -/
theorem C5_counterexample :
    (update_name initState).1.current_name_index ≠
      (initState.current_name_index + 1) % initState.channel_name_list.length := by
  decide

/-- C5 (amended): once a voice channel is tracked, every tick of update_name
advances the current index by exactly one modulo the length of the name
list and leaves the channel carrying the list entry at the new index, so
the index sequence is cyclic with period equal to the list length and, over
one full cycle of ticks, every position of the fixed list is reached
exactly once, in list order.  The amendment forced by the counterexample is
the restriction to states in which a voice channel is tracked. -/
theorem C5_rotation_cycle (s : NameUpdaterState) (ch : VoiceChannel)
    (h : s.voice_channel = some ch)
    (hidx : s.current_name_index < s.channel_name_list.length) :
    ((tickState s).current_name_index =
        (s.current_name_index + 1) % s.channel_name_list.length)
    ∧ (∀ k : Nat,
        (tickState^[k + 1] s).current_name_index =
          (s.current_name_index + (k + 1)) % s.channel_name_list.length
        ∧ (tickState^[k + 1] s).voice_channel =
            some ⟨s.channel_name_list.getD
              ((s.current_name_index + (k + 1)) % s.channel_name_list.length) defaultName⟩)
    ∧ ((tickState^[s.channel_name_list.length] s).current_name_index =
        s.current_name_index)
    ∧ (∀ k₁ k₂ : Nat,
        k₁ < s.channel_name_list.length → k₂ < s.channel_name_list.length →
        (tickState^[k₁ + 1] s).current_name_index =
          (tickState^[k₂ + 1] s).current_name_index → k₁ = k₂)
    ∧ (∀ j : Nat, j < s.channel_name_list.length →
        ∃ k : Nat, k < s.channel_name_list.length ∧
          (tickState^[k + 1] s).current_name_index = j) := by
  have hpos : 0 < s.channel_name_list.length :=
    Nat.lt_of_le_of_lt (Nat.zero_le _) hidx
  have hiter := tick_iterate s ch h
  refine ⟨(tick_advance s ch h).1, ?_, ?_, ?_, ?_⟩
  · intro k
    exact ⟨(hiter k).2.2, (hiter k).2.1⟩
  · have hn1 : s.channel_name_list.length - 1 + 1 = s.channel_name_list.length :=
      Nat.succ_pred_eq_of_pos hpos
    have hper := (hiter (s.channel_name_list.length - 1)).2.2
    rw [hn1] at hper
    rw [hper, Nat.add_mod_right, Nat.mod_eq_of_lt hidx]
  · intro k₁ k₂ hk₁ hk₂ heq
    rw [(hiter k₁).2.2, (hiter k₂).2.2] at heq
    exact mod_shift_inj s.channel_name_list.length s.current_name_index k₁ k₂ hk₁ hk₂ heq
  · intro j hj
    have hinj : Function.Injective
        (fun k : Fin s.channel_name_list.length =>
          (⟨(s.current_name_index + (k.1 + 1)) % s.channel_name_list.length,
            Nat.mod_lt _ hpos⟩ : Fin s.channel_name_list.length)) := by
      intro a b hab
      have hval : (s.current_name_index + (a.1 + 1)) % s.channel_name_list.length =
          (s.current_name_index + (b.1 + 1)) % s.channel_name_list.length :=
        congrArg Fin.val hab
      exact Fin.ext (mod_shift_inj s.channel_name_list.length s.current_name_index
        a.1 b.1 a.2 b.2 hval)
    have hsurj := Finite.injective_iff_surjective.mp hinj
    obtain ⟨k, hk⟩ := hsurj ⟨j, hj⟩
    refine ⟨k.1, k.2, ?_⟩
    rw [(hiter k.1).2.2]
    exact congrArg Fin.val hk

/-- A concrete reachable state with a tracked channel, for the C5 witness:
the initial state after on_ready attached the channel named at index 0. -/
def demoState : NameUpdaterState := applyOp initState RotatorOp.attach_channel

/-- C5 witness: the amended theorem applied to the concrete post-on_ready
state, whose tracked channel is named Welcome Room. -/
theorem C5_rotation_cycle_witness :
    (tickState demoState).current_name_index =
      (demoState.current_name_index + 1) % demoState.channel_name_list.length :=
  (C5_rotation_cycle demoState ⟨"Welcome Room"⟩ rfl (by decide)).1

theorem applyOp_list_pos (s : NameUpdaterState) (op : RotatorOp)
    (hs : 0 < s.channel_name_list.length) :
    0 < (applyOp s op).channel_name_list.length := by
  cases op with
  | tick =>
    show 0 < (tickState s).channel_name_list.length
    rw [tickState_channel_name_list]
    exact hs
  | set_channel_names names =>
    show 0 < (if names.isEmpty then s
      else { s with channel_name_list := names }).channel_name_list.length
    by_cases hn : names.isEmpty
    · rw [if_pos hn]
      exact hs
    · rw [if_neg hn]
      have : names ≠ [] := by
        intro hcon
        rw [hcon] at hn
        exact hn rfl
      exact List.length_pos.mpr this
  | attach_channel => exact hs

theorem foldl_applyOp_list_pos (ops : List RotatorOp) :
    ∀ s : NameUpdaterState, 0 < s.channel_name_list.length →
      0 < (ops.foldl applyOp s).channel_name_list.length := by
  induction ops with
  | nil => intro s hs; exact hs
  | cons op rest ih =>
    intro s hs
    rw [List.foldl_cons]
    exact ih _ (applyOp_list_pos s op hs)

/-- C10: the rotation list is initialized with six names and stays non-empty
after every sequence of cog operations, because set_channel_names replaces
it only when at least one name was supplied; hence the divisor in the tick
step (the list length) is never zero at any reachable state. -/
theorem C10_list_never_empty :
    initState.channel_name_list.length = 6
    ∧ ∀ ops : List RotatorOp, 0 < (runOps ops).channel_name_list.length :=
  ⟨rfl, fun ops => foldl_applyOp_list_pos ops initState (by decide)⟩

end NameUpdate

namespace DateChannel

/-- Zero-padded two-digit field, as produced by strftime for the m and d
fields of the format string used in DateChannelCog.py line 21. -/
def pad2 (n : Nat) : String :=
  if n < 10 then "0" ++ toString n else toString n

/-- The date string now.strftime with month/day/year separated by slashes
(DateChannelCog.py line 21): zero-padded month and day, then the year in
decimal (identical to the platform strftime output for all four-digit
years). -/
def strftimeMDY (m d y : Nat) : String :=
  pad2 m ++ "/" ++ pad2 d ++ "/" ++ toString y

/-- A voice channel as the cog sees it: only the name is read or written. -/
structure DCVoiceChannel where
  name : String
  deriving DecidableEq, Repr

/-- A guild reduced to its voice channel list (in the order the host API
returns it, which is the order discord.utils.get scans). -/
structure DCGuild where
  voice_channels : List DCVoiceChannel
  deriving DecidableEq, Repr

/-- The fixed channel name the daily task looks for. -/
def dateChannelName : String := "date-channel"

/-- Effect of the per-guild body of channel_update (DateChannelCog.py lines
24-38): discord.utils.get returns the first voice channel whose name is
date-channel, and if one is found channel.edit renames that channel; a
guild with no such channel is left untouched. -/
def renameFirstDateChannel (newName : String) : List DCVoiceChannel → List DCVoiceChannel
  | [] => []
  | ch :: rest =>
    if ch.name = dateChannelName then { ch with name := newName } :: rest
    else ch :: renameFirstDateChannel newName rest

/-- One guild processed by one tick of channel_update with the given date
string. -/
def channel_update_guild (dateStr : String) (g : DCGuild) : DCGuild :=
  { voice_channels := renameFirstDateChannel ("date-" ++ dateStr) g.voice_channels }

/-- One tick of the channel_update task (DateChannelCog.py lines 17-38):
every guild of the bot is processed in turn.  The task is scheduled by
tasks.loop with a 24 hour interval, so one tick runs per day. -/
def channel_update (dateStr : String) (guilds : List DCGuild) : List DCGuild :=
  guilds.map (channel_update_guild dateStr)

theorem renameFirstDateChannel_no_match (newName : String) :
    ∀ cs : List DCVoiceChannel,
      (∀ c ∈ cs, c.name ≠ dateChannelName) → renameFirstDateChannel newName cs = cs := by
  intro cs
  induction cs with
  | nil => intro _; rfl
  | cons ch rest ih =>
    intro hnone
    unfold renameFirstDateChannel
    rw [if_neg (hnone ch (List.mem_cons_self ch rest))]
    rw [ih (fun c hc => hnone c (List.mem_cons_of_mem ch hc))]

theorem renameFirstDateChannel_match (newName : String) :
    ∀ (pre : List DCVoiceChannel) (ch : DCVoiceChannel) (post : List DCVoiceChannel),
      (∀ c ∈ pre, c.name ≠ dateChannelName) → ch.name = dateChannelName →
      renameFirstDateChannel newName (pre ++ ch :: post) =
        pre ++ { ch with name := newName } :: post := by
  intro pre
  induction pre with
  | nil =>
    intro ch post _ hch
    show renameFirstDateChannel newName (ch :: post) = _
    unfold renameFirstDateChannel
    rw [if_pos hch]
    rfl
  | cons c rest ih =>
    intro ch post hpre hch
    show renameFirstDateChannel newName (c :: (rest ++ ch :: post)) = _
    unfold renameFirstDateChannel
    rw [if_neg (hpre c (List.mem_cons_self c rest))]
    rw [ih ch post (fun x hx => hpre x (List.mem_cons_of_mem c hx)) hch]
    rfl

/-- C3: on a tick of the daily renamer with the current date m/d/y, every
guild of the bot is processed; a guild whose voice channels include one
named date-channel has the first such channel renamed to date- followed by
the date in zero-padded month/day/year order, all other channels untouched;
a guild with no channel of that exact name is left completely unchanged.
The recurrence itself is the 24 hour tasks.loop interval on the task. -/
theorem C3_daily_rename (m d y : Nat) (guilds : List DCGuild) :
    channel_update (strftimeMDY m d y) guilds =
        guilds.map (channel_update_guild (strftimeMDY m d y))
    ∧ (∀ g ∈ guilds, (∀ c ∈ g.voice_channels, c.name ≠ dateChannelName) →
        channel_update_guild (strftimeMDY m d y) g = g)
    ∧ (∀ g ∈ guilds, ∀ pre ch post,
        g.voice_channels = pre ++ ch :: post →
        (∀ c ∈ pre, c.name ≠ dateChannelName) → ch.name = dateChannelName →
        (channel_update_guild (strftimeMDY m d y) g).voice_channels =
          pre ++ { ch with name := "date-" ++ strftimeMDY m d y } :: post) := by
  refine ⟨rfl, ?_, ?_⟩
  · intro g _ hnone
    show ({ voice_channels := renameFirstDateChannel _ g.voice_channels } : DCGuild) = g
    rw [renameFirstDateChannel_no_match _ g.voice_channels hnone]
  · intro g _ pre ch post hsplit hpre hch
    show renameFirstDateChannel _ g.voice_channels = _
    rw [hsplit]
    exact renameFirstDateChannel_match _ pre ch post hpre hch

/-- C3 witness: a bot in two concrete guilds, one holding a date-channel
behind another channel and one without any; the theorem instantiated on
October 12 2026 renames exactly the matching channel. -/
theorem C3_daily_rename_witness :
    (channel_update_guild (strftimeMDY 10 12 2026)
        ⟨[⟨"general"⟩, ⟨"date-channel"⟩, ⟨"music"⟩]⟩).voice_channels =
      [⟨"general"⟩] ++ ⟨"date-10/12/2026"⟩ :: [⟨"music"⟩] :=
  ((C3_daily_rename 10 12 2026
      [⟨[⟨"general"⟩, ⟨"date-channel"⟩, ⟨"music"⟩]⟩, ⟨[⟨"lobby"⟩]⟩]).2.2
    ⟨[⟨"general"⟩, ⟨"date-channel"⟩, ⟨"music"⟩]⟩ (by simp)
    [⟨"general"⟩] ⟨"date-channel"⟩ [⟨"music"⟩] rfl (by decide) (by decide))

end DateChannel

namespace CaptchaGate

/-- The three delivery modes of the cog (captchagate.py line 14). -/
inductive VerificationMode
  | PUBLIC
  | DM
  | PRIVATE_CHANNEL
  deriving DecidableEq, Repr

/-- One stored challenge (captchagate.py lines 653-659): image url, option
labels, the correct label, and the timestamp written when the challenge was
added or last selected.  Timestamps (Python time.time floats) are carried
as Int; only their ordering matters.  Every challenge written by
challenge_add carries the last_used key, so the .get fallback to 0 in
_send_captcha never fires for entries this cog created. -/
structure Challenge where
  image_url : String
  options : List String
  correct_option : String
  last_used : Int
  deriving DecidableEq, Repr

/-- Per-guild persisted settings (captchagate.py lines 131-141 plus the
three lockdown keys read and written by lockdown.py). -/
structure GuildSettings where
  captcha_channel : Option Nat
  success_role : Option Nat
  log_channel : Option Nat
  kick_timeout : Int
  max_attempts : Nat
  challenges : List (String × Challenge)
  verification_mode : VerificationMode
  lockdown_enabled : Bool
  lockdown_users : List (Nat × Int)
  lockdown_message_id : Option Nat
  deriving DecidableEq, Repr

/-- The per-member tracking record stored in self.active_captchas
(captchagate.py lines 145-146 and 480-487). -/
structure MemberData where
  start_time : Int
  attempts : Nat
  message_id : Option Nat
  public_message_id : Option Nat
  error_message_id : Option Nat
  channel_id : Option Nat
  deriving DecidableEq, Repr

/-- The entry written on join and on queue processing (captchagate.py lines
480-487, lockdown.py lines 55-62). -/
def freshMemberData (now : Int) : MemberData :=
  { start_time := now, attempts := 0, message_id := none, public_message_id := none,
    error_message_id := none, channel_id := none }

/-- The active_captchas dict: an association list in insertion order, the
iteration order of a Python dict.  Keys (member ids) are unique in an
actual dict. -/
abbrev Track := List (Nat × MemberData)

/-- Dict read: first entry with the key. -/
def lookupTrack (ac : Track) (mid : Nat) : Option MemberData :=
  (ac.find? (fun p => p.1 == mid)).map Prod.snd

/-- Dict pop: the entry with the key is removed. -/
def removeTrack (ac : Track) (mid : Nat) : Track :=
  ac.filter (fun p => p.1 != mid)

/-- Dict write of a whole record: replace in place when the key is present
(Python dicts keep the original slot on re-assignment), append at the end
when absent (insertion order). -/
def setTrack : Track → Nat → MemberData → Track
  | [], mid, d => [(mid, d)]
  | p :: rest, mid, d =>
    if p.1 == mid then (mid, d) :: rest else p :: setTrack rest mid d

/-- In-place update of the fields of an existing record; absent keys are
untouched. -/
def modifyTrack (ac : Track) (mid : Nat) (f : MemberData → MemberData) : Track :=
  ac.map (fun p => if p.1 == mid then (p.1, f p.2) else p)

theorem lookupTrack_nil (m : Nat) : lookupTrack [] m = none := rfl

theorem lookupTrack_cons (p : Nat × MemberData) (l : Track) (m : Nat) :
    lookupTrack (p :: l) m = if p.1 = m then some p.2 else lookupTrack l m := by
  by_cases h : p.1 = m
  · simp [lookupTrack, List.find?_cons, h]
  · simp [lookupTrack, List.find?_cons, h]

theorem modifyTrack_cons (p : Nat × MemberData) (l : Track) (mid : Nat)
    (f : MemberData → MemberData) :
    modifyTrack (p :: l) mid f =
      (if p.1 = mid then (p.1, f p.2) else p) :: modifyTrack l mid f := by
  by_cases h : p.1 = mid
  · simp [modifyTrack, h]
  · simp [modifyTrack, h]

theorem removeTrack_cons (p : Nat × MemberData) (l : Track) (mid : Nat) :
    removeTrack (p :: l) mid =
      if p.1 = mid then removeTrack l mid else p :: removeTrack l mid := by
  by_cases h : p.1 = mid
  · simp [removeTrack, List.filter_cons, h]
  · simp [removeTrack, List.filter_cons, h]

theorem lookupTrack_modifyTrack (ac : Track) (mid : Nat) (f : MemberData → MemberData)
    (m : Nat) :
    lookupTrack (modifyTrack ac mid f) m =
      if m = mid then (lookupTrack ac m).map f else lookupTrack ac m := by
  induction ac with
  | nil =>
    show lookupTrack [] m = if m = mid then (lookupTrack [] m).map f else lookupTrack [] m
    rw [lookupTrack_nil, Option.map_none', ite_self]
  | cons p rest ih =>
    rw [modifyTrack_cons]
    by_cases hp : p.1 = mid
    · rw [if_pos hp, lookupTrack_cons, lookupTrack_cons]
      by_cases hpm : p.1 = m
      · have hm : m = mid := by rw [← hpm, hp]
        rw [if_pos hpm, if_pos hpm, if_pos hm, Option.map_some']
      · rw [if_neg hpm, if_neg hpm]
        exact ih
    · rw [if_neg hp, lookupTrack_cons, lookupTrack_cons]
      by_cases hpm : p.1 = m
      · have hm : ¬ m = mid := by
          intro hcon
          exact hp (hpm.trans hcon)
        rw [if_pos hpm, if_pos hpm, if_neg hm]
      · rw [if_neg hpm, if_neg hpm]
        exact ih

theorem lookupTrack_removeTrack (ac : Track) (mid m : Nat) :
    lookupTrack (removeTrack ac mid) m =
      if m = mid then none else lookupTrack ac m := by
  induction ac with
  | nil =>
    show lookupTrack [] m = if m = mid then none else lookupTrack [] m
    rw [lookupTrack_nil, ite_self]
  | cons p rest ih =>
    rw [removeTrack_cons]
    by_cases hp : p.1 = mid
    · rw [if_pos hp]
      by_cases hm : m = mid
      · rw [if_pos hm] at ih ⊢
        exact ih
      · rw [if_neg hm] at ih ⊢
        have hpm : ¬ p.1 = m := by
          intro hcon
          exact hm (by rw [← hcon, hp])
        rw [lookupTrack_cons, if_neg hpm]
        exact ih
    · rw [if_neg hp, lookupTrack_cons, lookupTrack_cons]
      by_cases hpm : p.1 = m
      · have hm : ¬ m = mid := by
          intro hcon
          exact hp (hpm.trans hcon)
        rw [if_pos hpm, if_pos hpm, if_neg hm]
      · rw [if_neg hpm, if_neg hpm]
        exact ih

theorem lookupTrack_setTrack (ac : Track) (mid : Nat) (d : MemberData) (m : Nat) :
    lookupTrack (setTrack ac mid d) m =
      if m = mid then some d else lookupTrack ac m := by
  induction ac with
  | nil =>
    show lookupTrack [(mid, d)] m = if m = mid then some d else lookupTrack [] m
    rw [lookupTrack_cons, lookupTrack_nil]
    by_cases hm : m = mid
    · rw [if_pos hm, if_pos (hm.symm : mid = m)]
    · rw [if_neg hm, if_neg (fun hcon => hm (hcon.symm : m = mid))]
  | cons p rest ih =>
    show lookupTrack (if p.1 == mid then (mid, d) :: rest else p :: setTrack rest mid d) m = _
    by_cases hp : p.1 = mid
    · rw [if_pos (by simpa using hp), lookupTrack_cons, lookupTrack_cons]
      by_cases hm : m = mid
      · rw [if_pos (show (mid, d).1 = m by simpa using hm.symm), if_pos hm]
      · have hpm : ¬ p.1 = m := by
          intro hcon
          exact hm (by rw [← hcon, hp])
        rw [if_neg (show ¬ (mid, d).1 = m by simpa using fun hcon => hm hcon.symm),
          if_neg hm, if_neg hpm]
    · rw [if_neg (by simpa using hp), lookupTrack_cons, lookupTrack_cons]
      by_cases hpm : p.1 = m
      · have hm : ¬ m = mid := by
          intro hcon
          exact hp (hpm.trans hcon)
        rw [if_pos hpm, if_pos hpm, if_neg hm]
      · rw [if_neg hpm, if_neg hpm]
        exact ih

/-- The sort key of the LRU selection (captchagate.py line 306) as a
Bool-valued total preorder for mergeSort; Python sorted is a stable merge
sort, as is List.mergeSort. -/
def lruLe (a b : String × Challenge) : Bool :=
  decide (a.2.last_used ≤ b.2.last_used)

/-- The challenge-selection step of _send_captcha (captchagate.py lines
297-314): sort the stored challenges by last_used, keep the first three as
the least-recently-used pool, and pick one of them at random.  The call
random.choice(least_used_pool) is modelled by the free index k reduced
modulo the pool size, so quantifying over k covers every possible random
outcome.  Returns none exactly on the early return for an empty challenge
set (line 297), which sends nothing. -/
def select_challenge (challenges : List (String × Challenge)) (k : Nat) :
    Option (String × Challenge) :=
  if challenges.isEmpty then none
  else
    let sorted_challenges := challenges.mergeSort lruLe
    let least_used_pool := sorted_challenges.take 3
    least_used_pool.get? (k % least_used_pool.length)

/-- The config update at captchagate.py lines 316-319: the selected
challenge's last_used becomes the current time at the moment of selection,
inside the same send, before the CAPTCHA is delivered and independent of
whether it is ever completed. -/
def mark_used (challenges : List (String × Challenge)) (cid : String) (now : Int) :
    List (String × Challenge) :=
  challenges.map (fun p => if p.1 = cid then (p.1, { p.2 with last_used := now }) else p)

/-- Selection and timestamp update of one _send_captcha call, combined. -/
def send_captcha_choose (challenges : List (String × Challenge)) (now : Int) (k : Nat) :
    Option ((String × Challenge) × List (String × Challenge)) :=
  match select_challenge challenges k with
  | none => none
  | some sel => some (sel, mark_used challenges sel.1 now)

theorem lruLe_trans : ∀ a b c : String × Challenge,
    lruLe a b = true → lruLe b c = true → lruLe a c = true := by
  intro a b c hab hbc
  simp only [lruLe, decide_eq_true_eq] at *
  exact le_trans hab hbc

theorem lruLe_total : ∀ a b : String × Challenge, (lruLe a b || lruLe b a) = true := by
  intro a b
  simp only [lruLe, Bool.or_eq_true, decide_eq_true_eq]
  exact Int.le_total a.2.last_used b.2.last_used

/-- C2: with a non-empty challenge set, the challenge presented is always a
member of the pool formed by the three least-recently-used challenges (the
whole set when fewer than three exist, witnessed by the permutation
conjunct), every challenge outside that pool has a last_used at least as
late as the selected one, and the stored timestamp of the selected
challenge is set to the current time of the selection itself; every other
challenge keeps its record unchanged. -/
theorem C2_lru_selection (challenges : List (String × Challenge)) (now : Int) (k : Nat)
    (hne : challenges ≠ []) :
    ∃ sel : String × Challenge,
      send_captcha_choose challenges now k = some (sel, mark_used challenges sel.1 now)
      ∧ sel ∈ (challenges.mergeSort lruLe).take 3
      ∧ sel ∈ challenges
      ∧ (∀ c ∈ (challenges.mergeSort lruLe).drop 3, sel.2.last_used ≤ c.2.last_used)
      ∧ (challenges.length ≤ 3 → ((challenges.mergeSort lruLe).take 3).Perm challenges)
      ∧ (sel.1, { sel.2 with last_used := now }) ∈ mark_used challenges sel.1 now
      ∧ (∀ p ∈ challenges, p.1 ≠ sel.1 → p ∈ mark_used challenges sel.1 now) := by
  have hperm := List.mergeSort_perm challenges lruLe
  have hsorted := List.sorted_mergeSort lruLe_trans lruLe_total challenges
  have hlen : (challenges.mergeSort lruLe).length = challenges.length := hperm.length_eq
  have hpos : 0 < challenges.length := List.length_pos.mpr hne
  have hpoollen : ((challenges.mergeSort lruLe).take 3).length =
      min 3 (challenges.length) := by
    rw [List.length_take, hlen]
  have hpoolpos : 0 < ((challenges.mergeSort lruLe).take 3).length := by
    rw [hpoollen]
    omega
  have hlt : k % ((challenges.mergeSort lruLe).take 3).length <
      ((challenges.mergeSort lruLe).take 3).length := Nat.mod_lt _ hpoolpos
  set pool := (challenges.mergeSort lruLe).take 3 with hpooldef
  set sel := pool.get ⟨k % pool.length, hlt⟩ with hseldef
  have hget : pool.get? (k % pool.length) = some sel := List.get?_eq_get hlt
  have hselect : select_challenge challenges k = some sel := by
    unfold select_challenge
    rw [if_neg (by simpa [List.isEmpty_iff] using hne)]
    exact hget
  have hchoose : send_captcha_choose challenges now k =
      some (sel, mark_used challenges sel.1 now) := by
    unfold send_captcha_choose
    rw [hselect]
  have hselpool : sel ∈ pool := List.get_mem pool _ hlt
  have hselsorted : sel ∈ challenges.mergeSort lruLe :=
    List.mem_of_mem_take hselpool
  have hselchal : sel ∈ challenges := hperm.mem_iff.mp hselsorted
  refine ⟨sel, hchoose, hselpool, hselchal, ?_, ?_, ?_, ?_⟩
  · intro c hc
    have hsplit := List.take_append_drop 3 (challenges.mergeSort lruLe)
    rw [← hsplit] at hsorted
    have := (List.pairwise_append.mp hsorted).2.2 sel hselpool c hc
    simpa [lruLe] using this
  · intro hle
    have : pool = challenges.mergeSort lruLe := by
      rw [hpooldef]
      exact List.take_of_length_le (by omega)
    rw [this]
    exact hperm
  · have := List.mem_map_of_mem
      (fun p : String × Challenge =>
        if p.1 = sel.1 then (p.1, { p.2 with last_used := now }) else p) hselchal
    simpa [mark_used] using this
  · intro p hp hpne
    exact List.mem_map.mpr ⟨p, hp, by simp [hpne]⟩

/-- Concrete challenges for the C2 witness. -/
def chalA : Challenge :=
  { image_url := "img-a", options := ["Cat", "Dog"], correct_option := "Cat",
    last_used := 5 }

/-- Second concrete challenge, older than chalA. -/
def chalB : Challenge :=
  { image_url := "img-b", options := ["Sun", "Moon"], correct_option := "Moon",
    last_used := 2 }

/-- Concrete challenge dict for the C2 witness. -/
def demoChallenges : List (String × Challenge) := [("a", chalA), ("b", chalB)]

/-- C2 witness: the selection theorem applied to a concrete two-challenge
configuration at time 100 with random index 0. -/
theorem C2_lru_selection_witness :
    ∃ sel : String × Challenge,
      send_captcha_choose demoChallenges 100 0 = some (sel, mark_used demoChallenges sel.1 100)
      ∧ sel ∈ (demoChallenges.mergeSort lruLe).take 3
      ∧ sel ∈ demoChallenges
      ∧ (∀ c ∈ (demoChallenges.mergeSort lruLe).drop 3, sel.2.last_used ≤ c.2.last_used)
      ∧ (demoChallenges.length ≤ 3 → ((demoChallenges.mergeSort lruLe).take 3).Perm demoChallenges)
      ∧ (sel.1, { sel.2 with last_used := 100 }) ∈ mark_used demoChallenges sel.1 100
      ∧ (∀ p ∈ demoChallenges, p.1 ≠ sel.1 → p ∈ mark_used demoChallenges sel.1 100) :=
  C2_lru_selection demoChallenges 100 0 (List.cons_ne_nil _ _)

/-- The flow-level state of the cog: the tracking dict plus two ghost lists
recording the externally visible outcomes the cog requested from the host
(the success-role grant in grant_role_and_cleanup, the guild kick in
_kick_user).  The ghosts only ever grow; they stand for the verified and
kicked phases of the member lifecycle. -/
structure FlowState where
  active_captchas : Track
  verified : List Nat
  kicked : List Nat
  deriving DecidableEq, Repr

/-- Delivery bookkeeping written into a tracking record by _send_captcha
(captchagate.py lines 344-464).  The concrete values are message and
channel ids handed out by the host, so they appear here as free
parameters; which mode writes which field is absorbed into them. -/
structure DeliveryIds where
  message_id : Option Nat
  public_message_id : Option Nat
  error_message_id : Option Nat
  channel_id : Option Nat
  deriving DecidableEq, Repr

/-- Update of the delivery fields of a tracking record. -/
def set_delivery (d : MemberData) (ids : DeliveryIds) : MemberData :=
  { d with message_id := ids.message_id,
           public_message_id := ids.public_message_id,
           error_message_id := ids.error_message_id,
           channel_id := ids.channel_id }

/-- State effect of _send_captcha (captchagate.py lines 290-464) on the
tracking dict: with no configured challenges the early return leaves it
untouched; otherwise only the delivery bookkeeping fields of the target
member's existing record are rewritten.  Presence, attempts and start_time
are never changed and no record is created or removed.  The parallel
last_used update on the chosen challenge is send_captcha_choose above. -/
def send_captcha_state (cfg : GuildSettings) (ac : Track) (mid : Nat)
    (ids : DeliveryIds) : Track :=
  if cfg.challenges.isEmpty then ac
  else modifyTrack ac mid (fun d => set_delivery d ids)

/-- grant_role_and_cleanup (captchagate.py lines 218-235): the success-role
grant is requested from the host (ghost verified) only when a success_role
id is configured (line 224, None is falsy and no guild role has id 0) and
the role both resolves in the guild and sits below the bot's top role
(line 226) — role_grantable bundles those two host-supplied facts;
otherwise only a warning is logged and nothing is granted.  In every case
_cleanup_messages_or_channel then pops the tracking record.  (The add_roles
call of a requested grant sits in a try whose failure is logged, a
host-side outcome outside this embedding.) -/
def grant_role_and_cleanup (cfg : GuildSettings) (role_grantable : Bool)
    (s : FlowState) (mid : Nat) : FlowState :=
  if cfg.success_role.isSome && role_grantable then
    { s with verified := mid :: s.verified,
             active_captchas := removeTrack s.active_captchas mid }
  else
    { s with active_captchas := removeTrack s.active_captchas mid }

/-- _kick_user (captchagate.py lines 274-287): the guild kick is requested
from the host (ghost kicked) and _cleanup_messages_or_channel pops the
tracking record. -/
def kick_user (s : FlowState) (mid : Nat) : FlowState :=
  { s with kicked := mid :: s.kicked,
           active_captchas := removeTrack s.active_captchas mid }

/-- Result of handle_failed_attempt, for stating C7. -/
inductive FailOutcome
  | not_tracked
  | kicked
  | resent
  deriving DecidableEq, Repr

/-- The in-place counter increment of captchagate.py line 244. -/
def incAttempts (d0 : MemberData) : MemberData :=
  { d0 with attempts := d0.attempts + 1 }

/-- handle_failed_attempt (captchagate.py lines 238-252): untracked members
are ignored; otherwise the attempt counter is incremented, and the member
is kicked when the new count reaches max_attempts and is sent a fresh
CAPTCHA below it. -/
def handle_failed_attempt (cfg : GuildSettings) (s : FlowState) (mid : Nat)
    (ids : DeliveryIds) : FlowState × FailOutcome :=
  match lookupTrack s.active_captchas mid with
  | none => (s, .not_tracked)
  | some d =>
    let ac1 := modifyTrack s.active_captchas mid incAttempts
    if cfg.max_attempts ≤ d.attempts + 1 then
      (kick_user { s with active_captchas := ac1 } mid, .kicked)
    else
      ({ s with active_captchas := send_captcha_state cfg ac1 mid ids }, .resent)

/-- CaptchaView.process_answer (captchagate.py lines 58-75): a correct
answer goes through grant_role_and_cleanup, a wrong one through
handle_failed_attempt. -/
def process_answer (cfg : GuildSettings) (s : FlowState) (member : Nat)
    (correct_answer user_answer : String) (ids : DeliveryIds)
    (role_grantable : Bool) : FlowState :=
  if user_answer = correct_answer then grant_role_and_cleanup cfg role_grantable s member
  else (handle_failed_attempt cfg s member ids).1

/-- The public refusal sent by CaptchaView.interaction_check. -/
def captchaRefusal : String :=
  "🚫 This CAPTCHA is not for you. You must wait for your own verification."

/-- The public refusal sent by RetryView.interaction_check. -/
def retryRefusal : String :=
  "🚫 This button is only for the person who needs to verify."

/-- CaptchaView.interaction_check (captchagate.py lines 43-48): allow iff
the interacting user is the member the view was built for, otherwise send
an ephemeral refusal. -/
def captcha_interaction_check (view_member user : Nat) : Bool × Option String :=
  if user = view_member then (true, none) else (false, some captchaRefusal)

/-- RetryView.interaction_check (captchagate.py lines 89-94). -/
def retry_interaction_check (view_member user : Nat) : Bool × Option String :=
  if user = view_member then (true, none) else (false, some retryRefusal)

/-- The discord.ui dispatch contract for a button on a CaptchaView: the
item callback (process_answer) runs only when interaction_check returned
True; otherwise the view does nothing beyond the check's own ephemeral
reply. -/
def dispatch_answer (cfg : GuildSettings) (s : FlowState) (view_member : Nat)
    (correct_answer : String) (user : Nat) (user_answer : String)
    (ids : DeliveryIds) (role_grantable : Bool) : FlowState × Option String :=
  let chk := captcha_interaction_check view_member user
  if chk.1 then
    (process_answer cfg s view_member correct_answer user_answer ids role_grantable, none)
  else (s, chk.2)

/-- The record update of handle_dm_retry step 2 (captchagate.py lines
266-268): clear the tracked error id and reset the kick timer. -/
def resetRetry (now : Int) (d : MemberData) : MemberData :=
  { d with error_message_id := none, start_time := now }

/-- handle_dm_retry (captchagate.py lines 254-271): untracked members are
ignored; otherwise the error-message id is cleared, the kick timer is reset
to the current time, and the CAPTCHA is sent again. -/
def handle_dm_retry (cfg : GuildSettings) (s : FlowState) (mid : Nat) (now : Int)
    (ids : DeliveryIds) : FlowState :=
  match lookupTrack s.active_captchas mid with
  | none => s
  | some _ =>
    { s with active_captchas :=
        send_captcha_state cfg (modifyTrack s.active_captchas mid (resetRetry now)) mid ids }

/-- The discord.ui dispatch contract for the RetryView button: on_retry_click
(which ends in handle_dm_retry) runs only when interaction_check returned
True. -/
def dispatch_retry (cfg : GuildSettings) (s : FlowState) (view_member user : Nat)
    (now : Int) (ids : DeliveryIds) : FlowState × Option String :=
  let chk := retry_interaction_check view_member user
  if chk.1 then (handle_dm_retry cfg s view_member now ids, none)
  else (s, chk.2)

/-- A guild as seen by the background kick task: its member ids (the domain
of guild.get_member) and its configured kick_timeout. -/
structure GuildM where
  members : List Nat
  kick_timeout : Int
  deriving DecidableEq, Repr

/-- The inner loop of kick_timed_out_users (captchagate.py lines 499-506):
the first guild of bot.guilds containing the member (the loop breaks after
the first hit). -/
def findMemberGuild (guilds : List GuildM) (mid : Nat) : Option GuildM :=
  guilds.find? (fun g => g.members.contains mid)

/-- The timeout test of kick_timed_out_users: true when the member is in a
guild of the bot and has been tracked strictly longer than that guild's
kick_timeout; a member in no guild is never kicked by the task. -/
def timedOut (guilds : List GuildM) (now : Int) (mid : Nat) (d : MemberData) : Bool :=
  match findMemberGuild guilds mid with
  | some g => decide (g.kick_timeout < now - d.start_time)
  | none => false

/-- The body of the kick loop for one tracked entry: kick when timed out,
otherwise leave everything alone. -/
def stepKick (guilds : List GuildM) (now : Int) (acc : FlowState)
    (p : Nat × MemberData) : FlowState :=
  if timedOut guilds now p.1 p.2 then kick_user acc p.1 else acc

/-- One tick of the kick_timed_out_users task (captchagate.py lines
492-506): iterate over a snapshot of the tracked entries (list of the dict
keys) and kick every timed-out member.  Each iteration touches only its own
member's record, so reading the record from the snapshot agrees with the
Python code's read from the live dict whenever the keys are unique, which a
dict guarantees.  The successive time.time() calls of the loop are one
clock value. -/
def kick_timed_out_users (guilds : List GuildM) (now : Int) (s : FlowState) : FlowState :=
  s.active_captchas.foldl (stepKick guilds now) s

/-- on_member_join (captchagate.py lines 471-490): bots are ignored; the
handler returns early unless challenges are configured and, in the two
channel-based modes, a captcha_channel is set; otherwise a fresh tracking
record is written and _send_captcha runs.  The returned flag is true when
the handler reached the delivery step.  Nothing here reads
lockdown_enabled or writes lockdown_users. -/
def on_member_join (cfg : GuildSettings) (is_bot : Bool) (mid : Nat) (now : Int)
    (s : FlowState) (ids : DeliveryIds) : FlowState × Bool :=
  if is_bot then (s, false)
  else if cfg.challenges.isEmpty
      || (!(cfg.verification_mode = VerificationMode.DM : Bool)
          && cfg.captcha_channel.isNone) then (s, false)
  else
    let ac1 := setTrack s.active_captchas mid (freshMemberData now)
    ({ s with active_captchas := send_captcha_state cfg ac1 mid ids }, true)

/-- The per-member body of the lockdown queue loop (lockdown.py lines
49-67): a queued member still in the guild gets a fresh tracking record. -/
def queueStep (guild_members : List Nat) (now : Int) (acc : Track)
    (p : Nat × Int) : Track :=
  if guild_members.contains p.1 then setTrack acc p.1 (freshMemberData now) else acc

/-- _process_lockdown_queue (lockdown.py lines 35-69): with an empty queue
nothing happens; otherwise the queue is cleared first and every queued
member still in the guild gets a fresh tracking record and a CAPTCHA send
(whose delivery-field writes are irrelevant to presence, so the fresh
record stands for the sent state); members who left are skipped. -/
def process_lockdown_queue (guild_members : List Nat) (now : Int)
    (cfg : GuildSettings) (ac : Track) : GuildSettings × Track :=
  if cfg.lockdown_users.isEmpty then (cfg, ac)
  else
    ({ cfg with lockdown_users := [] },
     cfg.lockdown_users.foldl (queueStep guild_members now) ac)

/-- Outcome of the captchaset lockdown command, for stating C9. -/
inductive LockdownOutcome
  | no_channel
  | already_set
  | enabled
  | enable_failed
  | disabled
  deriving DecidableEq, Repr

/-- The announcement cleanup of the disable branch (lockdown.py lines
120-128): when an announcement id is stored and the fetch-and-delete
succeeds, the stored id is cleared; on failure the command moves on with
the id still stored. -/
def clearLockdownMsg (cfg1 : GuildSettings) (delete_ok : Bool) : GuildSettings :=
  match cfg1.lockdown_message_id with
  | some _ => if delete_ok then { cfg1 with lockdown_message_id := none } else cfg1
  | none => cfg1

/-- captchaset_lockdown (lockdown.py lines 78-133).  channel_exists models
whether ctx.guild.get_channel finds the configured channel; send_ok models
whether posting the announcement raises discord.Forbidden; delete_ok models
whether the old announcement could be fetched and deleted; new_msg_id is
the id the host gives the announcement.  On a failed announcement send the
lockdown_enabled flag is rolled back to False (line 113). -/
def captchaset_lockdown (cfg : GuildSettings) (s : FlowState)
    (channel_exists send_ok delete_ok : Bool) (state : Bool) (new_msg_id : Nat)
    (guild_members : List Nat) (now : Int) :
    GuildSettings × FlowState × LockdownOutcome :=
  if !(cfg.captcha_channel.isSome && channel_exists) then (cfg, s, .no_channel)
  else if state = cfg.lockdown_enabled then (cfg, s, .already_set)
  else if state then
    if send_ok then
      ({ { cfg with lockdown_enabled := true } with
          lockdown_message_id := some new_msg_id }, s, .enabled)
    else
      ({ { cfg with lockdown_enabled := true } with
          lockdown_enabled := false }, s, .enable_failed)
  else
    ((process_lockdown_queue guild_members now
        (clearLockdownMsg { cfg with lockdown_enabled := false } delete_ok)
        s.active_captchas).1,
     { s with active_captchas :=
        (process_lockdown_queue guild_members now
          (clearLockdownMsg { cfg with lockdown_enabled := false } delete_ok)
          s.active_captchas).2 },
     .disabled)

/-- C7: for every failed answer by a tracked member the attempt counter
rises by exactly one, the member is kicked exactly when the new count
reaches max_attempts (the code compares with greater-or-equal, which first
fires at equality whenever the count was still below the limit, as the flow
keeps it), and below the threshold the member keeps a tracking record with
the incremented counter and receives a fresh CAPTCHA, with no kick and no
verification. -/
theorem handle_failed_attempt_none (cfg : GuildSettings) (s : FlowState) (mid : Nat)
    (ids : DeliveryIds) (hd : lookupTrack s.active_captchas mid = none) :
    handle_failed_attempt cfg s mid ids = (s, FailOutcome.not_tracked) := by
  simp only [handle_failed_attempt, hd]

theorem handle_failed_attempt_kick (cfg : GuildSettings) (s : FlowState) (mid : Nat)
    (ids : DeliveryIds) (d : MemberData)
    (hd : lookupTrack s.active_captchas mid = some d)
    (hle : cfg.max_attempts ≤ d.attempts + 1) :
    handle_failed_attempt cfg s mid ids =
      (kick_user
        { s with active_captchas := modifyTrack s.active_captchas mid incAttempts } mid,
       FailOutcome.kicked) := by
  simp only [handle_failed_attempt, hd, if_pos hle]

theorem handle_failed_attempt_resend (cfg : GuildSettings) (s : FlowState) (mid : Nat)
    (ids : DeliveryIds) (d : MemberData)
    (hd : lookupTrack s.active_captchas mid = some d)
    (hlt : d.attempts + 1 < cfg.max_attempts) :
    handle_failed_attempt cfg s mid ids =
      ({ s with active_captchas :=
          send_captcha_state cfg (modifyTrack s.active_captchas mid incAttempts) mid ids },
       FailOutcome.resent) := by
  have hnotle : ¬ cfg.max_attempts ≤ d.attempts + 1 := by omega
  simp only [handle_failed_attempt, hd, if_neg hnotle]

theorem C7_failed_attempt (cfg : GuildSettings) (s : FlowState) (mid : Nat)
    (ids : DeliveryIds) (d : MemberData)
    (hd : lookupTrack s.active_captchas mid = some d)
    (hch : cfg.challenges ≠ []) :
    (cfg.max_attempts ≤ d.attempts + 1 →
      (handle_failed_attempt cfg s mid ids).2 = FailOutcome.kicked
      ∧ lookupTrack (handle_failed_attempt cfg s mid ids).1.active_captchas mid = none
      ∧ (handle_failed_attempt cfg s mid ids).1.kicked = mid :: s.kicked)
    ∧ (d.attempts + 1 < cfg.max_attempts →
      (handle_failed_attempt cfg s mid ids).2 = FailOutcome.resent
      ∧ lookupTrack (handle_failed_attempt cfg s mid ids).1.active_captchas mid =
          some (set_delivery { d with attempts := d.attempts + 1 } ids)
      ∧ (handle_failed_attempt cfg s mid ids).1.kicked = s.kicked
      ∧ (handle_failed_attempt cfg s mid ids).1.verified = s.verified)
    ∧ (d.attempts < cfg.max_attempts →
      ((handle_failed_attempt cfg s mid ids).2 = FailOutcome.kicked ↔
        d.attempts + 1 = cfg.max_attempts)) := by
  have hne : cfg.challenges.isEmpty = false := by
    simpa [List.isEmpty_iff] using hch
  refine ⟨?_, ?_, ?_⟩
  · intro hle
    rw [handle_failed_attempt_kick cfg s mid ids d hd hle]
    refine ⟨rfl, ?_, rfl⟩
    show lookupTrack (removeTrack _ mid) mid = none
    rw [lookupTrack_removeTrack, if_pos rfl]
  · intro hlt
    rw [handle_failed_attempt_resend cfg s mid ids d hd hlt]
    refine ⟨rfl, ?_, rfl, rfl⟩
    show lookupTrack (send_captcha_state cfg _ mid ids) mid = _
    unfold send_captcha_state
    rw [if_neg (by simp [hne])]
    rw [lookupTrack_modifyTrack, if_pos rfl, lookupTrack_modifyTrack, if_pos rfl, hd]
    rfl
  · intro hbelow
    by_cases hle : cfg.max_attempts ≤ d.attempts + 1
    · rw [handle_failed_attempt_kick cfg s mid ids d hd hle]
      constructor
      · intro _
        omega
      · intro _
        rfl
    · rw [handle_failed_attempt_resend cfg s mid ids d hd (by omega)]
      constructor
      · intro hcon
        exact absurd hcon (by simp)
      · intro heq
        exact absurd heq (by omega)

/-- Concrete flow state for witnesses: one tracked member, id 42, tracked
since time 50 with no failed attempts. -/
def demoFlow : FlowState :=
  { active_captchas := [(42, freshMemberData 50)], verified := [], kicked := [] }

/-- Concrete guild settings for witnesses. -/
def demoSettings : GuildSettings :=
  { captcha_channel := some 1, success_role := some 2, log_channel := none,
    kick_timeout := 300, max_attempts := 3, challenges := demoChallenges,
    verification_mode := VerificationMode.PUBLIC, lockdown_enabled := false,
    lockdown_users := [], lockdown_message_id := none }

/-- Concrete delivery ids for witnesses. -/
def demoIds : DeliveryIds :=
  { message_id := some 11, public_message_id := some 12, error_message_id := none,
    channel_id := none }

/-- C7 witness: member 42 with zero attempts fails once against
max_attempts three, so the counter is one, no kick happens and the CAPTCHA
is resent. -/
theorem C7_failed_attempt_witness :
    (handle_failed_attempt demoSettings demoFlow 42 demoIds).2 = FailOutcome.resent
    ∧ lookupTrack (handle_failed_attempt demoSettings demoFlow 42 demoIds).1.active_captchas 42 =
        some (set_delivery { freshMemberData 50 with attempts := 0 + 1 } demoIds)
    ∧ (handle_failed_attempt demoSettings demoFlow 42 demoIds).1.kicked = demoFlow.kicked
    ∧ (handle_failed_attempt demoSettings demoFlow 42 demoIds).1.verified = demoFlow.verified :=
  (C7_failed_attempt demoSettings demoFlow 42 demoIds (freshMemberData 50) rfl
    (List.cons_ne_nil _ _)).2.1 (by decide)

/-- C8: the view guards let exactly the target member through; any other
user gets only the fixed ephemeral refusal and the flow state stays
untouched, so no answer is processed and no verification state changes on a
foreign interaction, on both the CAPTCHA view and the DM-retry view. -/
theorem C8_interaction_guard :
    (∀ m u : Nat,
      ((captcha_interaction_check m u).1 = true ↔ u = m)
      ∧ ((retry_interaction_check m u).1 = true ↔ u = m))
    ∧ (∀ (cfg : GuildSettings) (s : FlowState) (m : Nat) (ca : String) (u : Nat)
        (ua : String) (ids : DeliveryIds) (rg : Bool), u ≠ m →
        dispatch_answer cfg s m ca u ua ids rg = (s, some captchaRefusal))
    ∧ (∀ (cfg : GuildSettings) (s : FlowState) (m u : Nat) (now : Int)
        (ids : DeliveryIds), u ≠ m →
        dispatch_retry cfg s m u now ids = (s, some retryRefusal)) := by
  refine ⟨?_, ?_, ?_⟩
  · intro m u
    constructor
    · by_cases h : u = m <;>
        simp [captcha_interaction_check, h]
    · by_cases h : u = m <;>
        simp [retry_interaction_check, h]
  · intro cfg s m ca u ua ids rg hne
    simp [dispatch_answer, captcha_interaction_check, hne]
  · intro cfg s m u now ids hne
    simp [dispatch_retry, retry_interaction_check, hne]

/-- C8 witness: user 7 clicking on member 5's CAPTCHA changes nothing and
draws the refusal. -/
theorem C8_interaction_guard_witness :
    dispatch_answer demoSettings demoFlow 5 ("Cat") 7 ("Dog") demoIds true =
      (demoFlow, some captchaRefusal) :=
  C8_interaction_guard.2.1 demoSettings demoFlow 5 ("Cat") 7 ("Dog") demoIds true
    (by decide)

/-- C9: the lockdown toggle refuses with no state change when no captcha
channel is configured or resolvable, or when the requested state equals the
stored one; and when enabling fails to post the announcement the
lockdown_enabled flag is rolled back, leaving the whole persisted settings
record and the flow state exactly as before the command. -/
theorem C9_lockdown_atomic (cfg : GuildSettings) (s : FlowState)
    (channel_exists send_ok delete_ok : Bool) (state : Bool) (new_msg_id : Nat)
    (guild_members : List Nat) (now : Int) :
    ((cfg.captcha_channel.isSome && channel_exists) = false →
      captchaset_lockdown cfg s channel_exists send_ok delete_ok state new_msg_id
        guild_members now = (cfg, s, LockdownOutcome.no_channel))
    ∧ ((cfg.captcha_channel.isSome && channel_exists) = true →
      state = cfg.lockdown_enabled →
      captchaset_lockdown cfg s channel_exists send_ok delete_ok state new_msg_id
        guild_members now = (cfg, s, LockdownOutcome.already_set))
    ∧ ((cfg.captcha_channel.isSome && channel_exists) = true →
      state = true → cfg.lockdown_enabled = false → send_ok = false →
      captchaset_lockdown cfg s channel_exists send_ok delete_ok state new_msg_id
        guild_members now = (cfg, s, LockdownOutcome.enable_failed)) := by
  refine ⟨?_, ?_, ?_⟩
  · intro hno
    unfold captchaset_lockdown
    rw [if_pos (by simp [hno])]
  · intro hyes heq
    unfold captchaset_lockdown
    rw [if_neg (by simp [hyes]), if_pos heq]
  · intro hyes hstate hcur hsend
    unfold captchaset_lockdown
    rw [if_neg (by simp [hyes]), if_neg (by rw [hstate, hcur]; simp), if_pos hstate,
      if_neg (by simp [hsend])]
    have hcfg : ({ { cfg with lockdown_enabled := true } with lockdown_enabled := false }
        : GuildSettings) = cfg := by
      cases cfg
      simp_all
    rw [hcfg]

/-- C9 witness: enabling lockdown on the concrete settings (channel
configured and found, currently disabled) with a failed announcement send
leaves settings and flow state untouched. -/
theorem C9_lockdown_atomic_witness :
    captchaset_lockdown demoSettings demoFlow true false true true 77 [] 1000 =
      (demoSettings, demoFlow, LockdownOutcome.enable_failed) :=
  (C9_lockdown_atomic demoSettings demoFlow true false true true 77 [] 1000).2.2
    (by decide) rfl rfl rfl

/-- Settings with lockdown switched on, for exhibiting the C1 divergence. -/
def lockdownSettings : GuildSettings :=
  { demoSettings with lockdown_enabled := true }

/-- The empty flow state. -/
def emptyFlow : FlowState :=
  { active_captchas := [], verified := [], kicked := [] }

/-- C1: the code contradicts the claim (and its own lockdown command
documentation, lockdown.py lines 79-87, and the announcement embed of lines
103-107): on_member_join never reads lockdown_enabled and nothing in the
repository ever writes lockdown_users, so a non-bot member joining a guild
whose lockdown is enabled is tracked and sent a CAPTCHA immediately instead
of being queued.  First conjunct: the concrete evaluation at such a guild.
Second conjunct: on_member_join is invariant under the lockdown flag, so no
join can ever behave differently during lockdown. -/
theorem C1_lockdown_ignored_on_join :
    ((lookupTrack (on_member_join lockdownSettings false 42 1000 emptyFlow
        demoIds).1.active_captchas 42).isSome = true
      ∧ (on_member_join lockdownSettings false 42 1000 emptyFlow demoIds).2 = true
      ∧ lockdownSettings.lockdown_enabled = true
      ∧ lockdownSettings.lockdown_users = [])
    ∧ (∀ (cfg : GuildSettings) (b is_bot : Bool) (mid : Nat) (now : Int)
        (s : FlowState) (ids : DeliveryIds),
        on_member_join { cfg with lockdown_enabled := b } is_bot mid now s ids =
          on_member_join cfg is_bot mid now s ids) := by
  constructor
  · exact ⟨rfl, rfl, rfl, rfl⟩
  · intro cfg b is_bot mid now s ids
    cases cfg
    rfl

/-- Whether some entry of the snapshot dooms member m on this tick. -/
def doomedIn (guilds : List GuildM) (now : Int) (todo : Track) (m : Nat) : Bool :=
  todo.any (fun q => q.1 == m && timedOut guilds now q.1 q.2)

/-- The loop of kick_timed_out_users over an explicit snapshot. -/
def runKick (guilds : List GuildM) (now : Int) (todo : Track) (acc : FlowState) :
    FlowState :=
  todo.foldl (stepKick guilds now) acc

theorem kick_timed_out_users_eq_runKick (guilds : List GuildM) (now : Int)
    (s : FlowState) :
    kick_timed_out_users guilds now s = runKick guilds now s.active_captchas s := rfl

theorem stepKick_pos (guilds : List GuildM) (now : Int) (acc : FlowState)
    (p : Nat × MemberData) (ht : timedOut guilds now p.1 p.2 = true) :
    stepKick guilds now acc p = kick_user acc p.1 := by
  unfold stepKick
  rw [if_pos ht]

theorem stepKick_neg (guilds : List GuildM) (now : Int) (acc : FlowState)
    (p : Nat × MemberData) (ht : timedOut guilds now p.1 p.2 = false) :
    stepKick guilds now acc p = acc := by
  unfold stepKick
  rw [if_neg (by simp [ht])]

theorem runKick_cons (guilds : List GuildM) (now : Int) (q : Nat × MemberData)
    (rest : Track) (acc : FlowState) :
    runKick guilds now (q :: rest) acc =
      runKick guilds now rest (stepKick guilds now acc q) := rfl

theorem runKick_active (guilds : List GuildM) (now : Int) :
    ∀ (todo : Track) (acc : FlowState),
      (runKick guilds now todo acc).active_captchas =
        acc.active_captchas.filter (fun p => !(doomedIn guilds now todo p.1)) := by
  intro todo
  induction todo with
  | nil =>
    intro acc
    show acc.active_captchas = _
    rw [List.filter_congr (q := fun _ => true), List.filter_true]
    intro p _
    simp [doomedIn]
  | cons q rest ih =>
    intro acc
    rw [runKick_cons, ih]
    cases ht : timedOut guilds now q.1 q.2
    · rw [stepKick_neg guilds now acc q ht]
      apply List.filter_congr
      intro p _
      simp [doomedIn, List.any_cons, ht]
    · rw [stepKick_pos guilds now acc q ht]
      show (removeTrack acc.active_captchas q.1).filter _ = _
      unfold removeTrack
      rw [List.filter_filter]
      apply List.filter_congr
      intro p _
      by_cases hpq : p.1 = q.1
      · simp [doomedIn, List.any_cons, hpq, ht]
      · have h1 : (q.1 == p.1) = false := by
          simpa using fun hcon : q.1 = p.1 => hpq hcon.symm
        have h2 : (p.1 != q.1) = true := by simpa using hpq
        simp [doomedIn, List.any_cons, h1, h2, ht, Bool.and_comm]

theorem runKick_verified (guilds : List GuildM) (now : Int) :
    ∀ (todo : Track) (acc : FlowState),
      (runKick guilds now todo acc).verified = acc.verified := by
  intro todo
  induction todo with
  | nil => intro acc; rfl
  | cons q rest ih =>
    intro acc
    rw [runKick_cons, ih]
    cases ht : timedOut guilds now q.1 q.2
    · rw [stepKick_neg guilds now acc q ht]
    · rw [stepKick_pos guilds now acc q ht]
      rfl

theorem runKick_kicked (guilds : List GuildM) (now : Int) :
    ∀ (todo : Track) (acc : FlowState) (m : Nat),
      (m ∈ (runKick guilds now todo acc).kicked ↔
        m ∈ acc.kicked ∨ doomedIn guilds now todo m = true) := by
  intro todo
  induction todo with
  | nil =>
    intro acc m
    simp [runKick, doomedIn]
  | cons q rest ih =>
    intro acc m
    rw [runKick_cons, ih]
    cases ht : timedOut guilds now q.1 q.2
    · rw [stepKick_neg guilds now acc q ht]
      simp [doomedIn, List.any_cons, ht]
    · rw [stepKick_pos guilds now acc q ht]
      show m ∈ q.1 :: acc.kicked ∨ _ ↔ _
      simp only [List.mem_cons, doomedIn, List.any_cons, ht, Bool.and_true,
        Bool.or_eq_true, beq_iff_eq]
      constructor
      · rintro ((h | h) | h)
        · exact Or.inr (Or.inl h.symm)
        · exact Or.inl h
        · exact Or.inr (Or.inr h)
      · rintro (h | (h | h))
        · exact Or.inl (Or.inr h)
        · exact Or.inl (Or.inl h.symm)
        · exact Or.inr h

theorem key_nodup_inj (l : Track) (h : (l.map Prod.fst).Nodup) :
    ∀ {p q : Nat × MemberData}, p ∈ l → q ∈ l → p.1 = q.1 → p = q := by
  induction l with
  | nil =>
    intro p q hp _ _
    exact absurd hp (List.not_mem_nil p)
  | cons a rest ih =>
    intro p q hp hq hk
    rw [List.map_cons, List.nodup_cons] at h
    rcases List.mem_cons.mp hp with hp1 | hp1 <;>
      rcases List.mem_cons.mp hq with hq1 | hq1
    · rw [hp1, hq1]
    · subst hp1
      have : q.1 ∈ rest.map Prod.fst := List.mem_map_of_mem Prod.fst hq1
      rw [← hk] at this
      exact absurd this h.1
    · subst hq1
      have : p.1 ∈ rest.map Prod.fst := List.mem_map_of_mem Prod.fst hp1
      rw [hk] at this
      exact absurd this h.1
    · exact ih h.2 hp1 hq1 hk

theorem doomedIn_self (guilds : List GuildM) (now : Int) (todo : Track)
    (hnd : (todo.map Prod.fst).Nodup) (p : Nat × MemberData) (hp : p ∈ todo) :
    doomedIn guilds now todo p.1 = timedOut guilds now p.1 p.2 := by
  cases ht : timedOut guilds now p.1 p.2
  · refine Bool.eq_false_iff.mpr ?_
    intro hcon
    obtain ⟨q, hq, hq2⟩ := List.any_eq_true.mp hcon
    rw [Bool.and_eq_true, beq_iff_eq] at hq2
    have hqp : q = p := key_nodup_inj todo hnd hq hp hq2.1
    rw [hqp] at hq2
    rw [ht] at hq2
    exact Bool.false_ne_true hq2.2
  · exact List.any_eq_true.mpr ⟨p, hp, by simp [ht]⟩

theorem lookupTrack_eq_none_iff (l : Track) (m : Nat) :
    lookupTrack l m = none ↔ ∀ q ∈ l, ¬ q.1 = m := by
  unfold lookupTrack
  rw [Option.map_eq_none', List.find?_eq_none]
  constructor
  · intro h q hq
    simpa using h q hq
  · intro h q hq
    simpa using h q hq

theorem lookupTrack_ne_none_iff (l : Track) (m : Nat) :
    lookupTrack l m ≠ none ↔ ∃ q ∈ l, q.1 = m := by
  rw [Ne, lookupTrack_eq_none_iff]
  push_neg
  constructor
  · rintro ⟨q, hq, hq2⟩
    exact ⟨q, hq, hq2⟩
  · rintro ⟨q, hq, hq2⟩
    exact ⟨q, hq, hq2⟩

/-- C6: one tick of the background kick task removes from tracking exactly
the tracked members who sit in some guild of the bot (the first such guild,
whose kick_timeout applies) and whose elapsed time strictly exceeds that
timeout; every such member is also kicked from the guild, every other
tracked entry survives the tick completely unchanged, and nobody is
verified by the task.  The key uniqueness hypothesis is what a Python dict
guarantees for active_captchas. -/
theorem C6_kick_tick (guilds : List GuildM) (now : Int) (s : FlowState)
    (hnd : (s.active_captchas.map Prod.fst).Nodup) :
    (kick_timed_out_users guilds now s).active_captchas =
      s.active_captchas.filter (fun p => !(timedOut guilds now p.1 p.2))
    ∧ (∀ p ∈ s.active_captchas, timedOut guilds now p.1 p.2 = true →
        lookupTrack (kick_timed_out_users guilds now s).active_captchas p.1 = none
        ∧ p.1 ∈ (kick_timed_out_users guilds now s).kicked)
    ∧ (∀ p ∈ s.active_captchas, timedOut guilds now p.1 p.2 = false →
        p ∈ (kick_timed_out_users guilds now s).active_captchas)
    ∧ (kick_timed_out_users guilds now s).verified = s.verified := by
  have hfilter : (kick_timed_out_users guilds now s).active_captchas =
      s.active_captchas.filter (fun p => !(timedOut guilds now p.1 p.2)) := by
    rw [kick_timed_out_users_eq_runKick, runKick_active]
    apply List.filter_congr
    intro p hp
    rw [doomedIn_self guilds now s.active_captchas hnd p hp]
  refine ⟨hfilter, ?_, ?_, ?_⟩
  · intro p hp ht
    constructor
    · rw [hfilter, lookupTrack_eq_none_iff]
      intro q hq hcon
      have hmem := List.mem_filter.mp hq
      have hqp : q = p := key_nodup_inj s.active_captchas hnd hmem.1 hp hcon
      have := hmem.2
      rw [hqp, ht] at this
      simp at this
    · rw [kick_timed_out_users_eq_runKick]
      refine (runKick_kicked guilds now s.active_captchas s p.1).mpr ?_
      exact Or.inr (List.any_eq_true.mpr ⟨p, hp, by simp [ht]⟩)
  · intro p hp ht
    rw [hfilter]
    exact List.mem_filter.mpr ⟨hp, by simp [ht]⟩
  · rw [kick_timed_out_users_eq_runKick, runKick_verified]

/-- Concrete bot guild list for the C6 witness. -/
def demoGuilds : List GuildM := [{ members := [42, 99], kick_timeout := 300 }]

/-- Concrete flow state for the C6 witness: member 42 tracked since time 50
(expired at time 1000 against timeout 300), member 99 tracked since 900. -/
def demoKickFlow : FlowState :=
  { active_captchas := [(42, freshMemberData 50), (99, freshMemberData 900)],
    verified := [], kicked := [] }

/-- C6 witness: at time 1000 the expired member 42 is dropped from tracking
and kicked. -/
theorem C6_kick_tick_witness :
    lookupTrack (kick_timed_out_users demoGuilds 1000 demoKickFlow).active_captchas 42 = none
    ∧ 42 ∈ (kick_timed_out_users demoGuilds 1000 demoKickFlow).kicked :=
  (C6_kick_tick demoGuilds 1000 demoKickFlow (by decide)).2.1
    (42, freshMemberData 50) (by decide) (by decide)

theorem lookupTrack_modifyTrack_none (ac : Track) (mid : Nat)
    (f : MemberData → MemberData) (m : Nat) :
    (lookupTrack (modifyTrack ac mid f) m = none ↔ lookupTrack ac m = none) := by
  rw [lookupTrack_modifyTrack]
  by_cases hm : m = mid
  · rw [if_pos hm, Option.map_eq_none']
  · rw [if_neg hm]

theorem lookupTrack_send_captcha_state_none (cfg : GuildSettings) (ac : Track)
    (mid : Nat) (ids : DeliveryIds) (m : Nat) :
    (lookupTrack (send_captcha_state cfg ac mid ids) m = none ↔
      lookupTrack ac m = none) := by
  unfold send_captcha_state
  by_cases h : cfg.challenges.isEmpty = true
  · rw [if_pos h]
  · rw [if_neg h]
    exact lookupTrack_modifyTrack_none ac mid _ m

theorem lookupTrack_setTrack_none (ac : Track) (mid : Nat) (d : MemberData) (m : Nat) :
    (lookupTrack (setTrack ac mid d) m = none ↔
      (¬ m = mid ∧ lookupTrack ac m = none)) := by
  rw [lookupTrack_setTrack]
  by_cases hm : m = mid
  · rw [if_pos hm]
    simp [hm]
  · rw [if_neg hm]
    simp [hm]

theorem on_member_join_bot (cfg : GuildSettings) (mid : Nat) (now : Int)
    (s : FlowState) (ids : DeliveryIds) :
    on_member_join cfg true mid now s ids = (s, false) := by
  unfold on_member_join
  rw [if_pos rfl]

theorem on_member_join_guarded (cfg : GuildSettings) (mid : Nat) (now : Int)
    (s : FlowState) (ids : DeliveryIds)
    (h : (cfg.challenges.isEmpty
      || (!(cfg.verification_mode = VerificationMode.DM : Bool)
          && cfg.captcha_channel.isNone)) = true) :
    on_member_join cfg false mid now s ids = (s, false) := by
  unfold on_member_join
  rw [if_neg (by simp), if_pos h]

theorem on_member_join_go (cfg : GuildSettings) (mid : Nat) (now : Int)
    (s : FlowState) (ids : DeliveryIds)
    (h : (cfg.challenges.isEmpty
      || (!(cfg.verification_mode = VerificationMode.DM : Bool)
          && cfg.captcha_channel.isNone)) = false) :
    on_member_join cfg false mid now s ids =
      ({ s with active_captchas := send_captcha_state cfg (setTrack s.active_captchas mid (freshMemberData now)) mid ids },
       true) := by
  unfold on_member_join
  rw [if_neg (by simp), if_neg (by simp [h])]

theorem dispatch_answer_other (cfg : GuildSettings) (s : FlowState) (m0 : Nat)
    (ca : String) (u : Nat) (ua : String) (ids : DeliveryIds) (rg : Bool)
    (hu : ¬ u = m0) :
    dispatch_answer cfg s m0 ca u ua ids rg = (s, some captchaRefusal) := by
  unfold dispatch_answer captcha_interaction_check
  rw [if_neg hu]
  rfl

theorem dispatch_answer_self (cfg : GuildSettings) (s : FlowState) (m0 : Nat)
    (ca ua : String) (ids : DeliveryIds) (rg : Bool) :
    dispatch_answer cfg s m0 ca m0 ua ids rg =
      (process_answer cfg s m0 ca ua ids rg, none) := by
  unfold dispatch_answer captcha_interaction_check
  rw [if_pos rfl]
  rfl

theorem dispatch_retry_other (cfg : GuildSettings) (s : FlowState) (m0 u : Nat)
    (now : Int) (ids : DeliveryIds) (hu : ¬ u = m0) :
    dispatch_retry cfg s m0 u now ids = (s, some retryRefusal) := by
  unfold dispatch_retry retry_interaction_check
  rw [if_neg hu]
  rfl

theorem dispatch_retry_self (cfg : GuildSettings) (s : FlowState) (m0 : Nat)
    (now : Int) (ids : DeliveryIds) :
    dispatch_retry cfg s m0 m0 now ids = (handle_dm_retry cfg s m0 now ids, none) := by
  unfold dispatch_retry retry_interaction_check
  rw [if_pos rfl]
  rfl

theorem handle_dm_retry_none (cfg : GuildSettings) (s : FlowState) (mid : Nat)
    (now : Int) (ids : DeliveryIds) (h : lookupTrack s.active_captchas mid = none) :
    handle_dm_retry cfg s mid now ids = s := by
  simp only [handle_dm_retry, h]

theorem handle_dm_retry_some (cfg : GuildSettings) (s : FlowState) (mid : Nat)
    (now : Int) (ids : DeliveryIds) (d : MemberData)
    (h : lookupTrack s.active_captchas mid = some d) :
    handle_dm_retry cfg s mid now ids =
      { s with active_captchas := send_captcha_state cfg (modifyTrack s.active_captchas mid (resetRetry now)) mid ids } := by
  simp only [handle_dm_retry, h]

theorem foldl_queueStep_none (gm : List Nat) (now : Int) :
    ∀ (users : List (Nat × Int)) (ac : Track) (m : Nat),
      lookupTrack (users.foldl (queueStep gm now) ac) m = none →
      lookupTrack ac m = none := by
  intro users
  induction users with
  | nil => intro ac m h; exact h
  | cons u rest ih =>
    intro ac m h
    rw [List.foldl_cons] at h
    have h2 := ih (queueStep gm now ac u) m h
    unfold queueStep at h2
    by_cases hc : (gm.contains u.1) = true
    · rw [if_pos hc, lookupTrack_setTrack] at h2
      by_cases hm : m = u.1
      · rw [if_pos hm] at h2
        cases h2
      · rw [if_neg hm] at h2
        exact h2
    · rw [if_neg hc] at h2
      exact h2

theorem process_lockdown_queue_none (gm : List Nat) (now : Int)
    (cfgx : GuildSettings) (ac : Track) (m : Nat)
    (h : lookupTrack (process_lockdown_queue gm now cfgx ac).2 m = none) :
    lookupTrack ac m = none := by
  unfold process_lockdown_queue at h
  by_cases he : cfgx.lockdown_users.isEmpty = true
  · rw [if_pos he] at h
    exact h
  · rw [if_neg he] at h
    exact foldl_queueStep_none gm now cfgx.lockdown_users ac m h

theorem captchaset_lockdown_flow (cfg : GuildSettings) (s : FlowState)
    (ce so dok st : Bool) (nid : Nat) (gm : List Nat) (now : Int) :
    ((captchaset_lockdown cfg s ce so dok st nid gm now).2.1.verified = s.verified
      ∧ (captchaset_lockdown cfg s ce so dok st nid gm now).2.1.kicked = s.kicked)
    ∧ (∀ m : Nat,
        lookupTrack (captchaset_lockdown cfg s ce so dok st nid gm now).2.1.active_captchas
          m = none →
        lookupTrack s.active_captchas m = none)
    ∧ (st = true → (captchaset_lockdown cfg s ce so dok st nid gm now).2.1 = s) := by
  unfold captchaset_lockdown
  by_cases h1 : (!(cfg.captcha_channel.isSome && ce)) = true
  · rw [if_pos h1]
    exact ⟨⟨rfl, rfl⟩, fun m h => h, fun _ => rfl⟩
  · rw [if_neg h1]
    by_cases h2 : st = cfg.lockdown_enabled
    · rw [if_pos h2]
      exact ⟨⟨rfl, rfl⟩, fun m h => h, fun _ => rfl⟩
    · rw [if_neg h2]
      by_cases h3 : st = true
      · rw [if_pos h3]
        by_cases h4 : so = true
        · rw [if_pos h4]
          exact ⟨⟨rfl, rfl⟩, fun m h => h, fun _ => rfl⟩
        · rw [if_neg h4]
          exact ⟨⟨rfl, rfl⟩, fun m h => h, fun _ => rfl⟩
      · rw [if_neg h3]
        refine ⟨⟨rfl, rfl⟩, ?_, fun hcon => absurd hcon h3⟩
        intro m h
        exact process_lockdown_queue_none gm now _ s.active_captchas m h

/-- The externally delivered events that drive the cog.  config_cmd stands
for any captchaset configuration command: those write guild settings only
and never touch the tracking dict. -/
inductive Event
  | join (is_bot : Bool) (mid : Nat) (now : Int) (ids : DeliveryIds)
  | answer (view_member : Nat) (correct_answer : String) (user : Nat)
      (user_answer : String) (ids : DeliveryIds) (role_grantable : Bool)
  | retry_click (view_member user : Nat) (now : Int) (ids : DeliveryIds)
  | kick_tick (guilds : List GuildM) (now : Int)
  | lockdown_cmd (channel_exists send_ok delete_ok state : Bool) (new_msg_id : Nat)
      (guild_members : List Nat) (now : Int)
  | config_cmd (newCfg : GuildSettings)

/-- One step of the cog under one event, combining the handlers above. -/
def stepEvent (cfg : GuildSettings) (s : FlowState) : Event → GuildSettings × FlowState
  | .join b mid now ids => (cfg, (on_member_join cfg b mid now s ids).1)
  | .answer m ca u ua ids rg => (cfg, (dispatch_answer cfg s m ca u ua ids rg).1)
  | .retry_click m u now ids => (cfg, (dispatch_retry cfg s m u now ids).1)
  | .kick_tick guilds now => (cfg, kick_timed_out_users guilds now s)
  | .lockdown_cmd ce so dok st nid gm now =>
      ((captchaset_lockdown cfg s ce so dok st nid gm now).1,
       (captchaset_lockdown cfg s ce so dok st nid gm now).2.1)
  | .config_cmd newCfg => (newCfg, s)

/-- C4 (amended): the verification flow only moves forward.  Under every
event, (1) a member with no tracking record acquires one only through a
member-join event for that member or through the lockdown-disable command
that processes the queue — in particular no event re-challenges a verified
or kicked member out of band; (2) a tracked member who loses the record
does so only by being recorded verified or kicked in the same step, or —
the amendment forced by the counterexample — by answering correctly while
the success-role grant is not requestable (no success_role configured, or
the role unresolvable or not below the bot's top role), in which case the
entry is removed with no grant; (3) and (4) the verified and kicked records
themselves are never retracted. -/
theorem C4_linear_progression (cfg : GuildSettings) (s : FlowState) (e : Event) :
    (∀ m : Nat, lookupTrack s.active_captchas m = none →
      lookupTrack (stepEvent cfg s e).2.active_captchas m ≠ none →
      (∃ b now ids, e = Event.join b m now ids)
      ∨ (∃ ce so dok nid gm now, e = Event.lockdown_cmd ce so dok false nid gm now))
    ∧ (∀ m : Nat, lookupTrack s.active_captchas m ≠ none →
      lookupTrack (stepEvent cfg s e).2.active_captchas m = none →
      m ∈ (stepEvent cfg s e).2.verified ∨ m ∈ (stepEvent cfg s e).2.kicked
      ∨ (∃ ca ua ids rg, e = Event.answer m ca m ua ids rg ∧ ua = ca
          ∧ (cfg.success_role.isSome && rg) = false))
    ∧ (∀ m : Nat, m ∈ s.verified → m ∈ (stepEvent cfg s e).2.verified)
    ∧ (∀ m : Nat, m ∈ s.kicked → m ∈ (stepEvent cfg s e).2.kicked) := by
  cases e with
  | join b mid now ids =>
    cases b with
    | true =>
      have hred : (stepEvent cfg s (Event.join true mid now ids)).2 = s := by
        show (on_member_join cfg true mid now s ids).1 = s
        rw [on_member_join_bot]
      rw [hred]
      exact ⟨fun m h1 h2 => absurd h1 h2, fun m h1 h2 => absurd h2 h1,
        fun m h => h, fun m h => h⟩
    | false =>
      by_cases hg : (cfg.challenges.isEmpty
          || (!(cfg.verification_mode = VerificationMode.DM : Bool)
              && cfg.captcha_channel.isNone)) = true
      · have hred : (stepEvent cfg s (Event.join false mid now ids)).2 = s := by
          show (on_member_join cfg false mid now s ids).1 = s
          rw [on_member_join_guarded cfg mid now s ids hg]
        rw [hred]
        exact ⟨fun m h1 h2 => absurd h1 h2, fun m h1 h2 => absurd h2 h1,
          fun m h => h, fun m h => h⟩
      · have hg2 := Bool.eq_false_iff.mpr hg
        have hred : (stepEvent cfg s (Event.join false mid now ids)).2 =
            { s with active_captchas := send_captcha_state cfg (setTrack s.active_captchas mid (freshMemberData now)) mid ids } := by
          show (on_member_join cfg false mid now s ids).1 = _
          rw [on_member_join_go cfg mid now s ids hg2]
        rw [hred]
        refine ⟨?_, ?_, ?_, ?_⟩
        · intro m h1 h2
          by_cases hm : m = mid
          · exact Or.inl ⟨false, now, ids, by rw [hm]⟩
          · exfalso
            apply h2
            show lookupTrack (send_captcha_state cfg (setTrack s.active_captchas mid
              (freshMemberData now)) mid ids) m = none
            rw [lookupTrack_send_captcha_state_none, lookupTrack_setTrack_none]
            exact ⟨hm, h1⟩
        · intro m h1 h2
          exfalso
          have h2b : lookupTrack (send_captcha_state cfg (setTrack s.active_captchas mid
            (freshMemberData now)) mid ids) m = none := h2
          rw [lookupTrack_send_captcha_state_none, lookupTrack_setTrack_none] at h2b
          exact h1 h2b.2
        · intro m h
          exact h
        · intro m h
          exact h
  | answer m0 ca u ua ids rg =>
    by_cases hu : u = m0
    · rw [hu]
      have hred0 : (stepEvent cfg s (Event.answer m0 ca m0 ua ids rg)).2 =
          process_answer cfg s m0 ca ua ids rg := by
        show (dispatch_answer cfg s m0 ca m0 ua ids rg).1 = _
        rw [dispatch_answer_self]
      by_cases hca : ua = ca
      · by_cases hgr : (cfg.success_role.isSome && rg) = true
        · have hred : (stepEvent cfg s (Event.answer m0 ca m0 ua ids rg)).2 =
              { s with verified := m0 :: s.verified, active_captchas := removeTrack s.active_captchas m0 } := by
            rw [hred0]
            unfold process_answer
            rw [if_pos hca]
            unfold grant_role_and_cleanup
            rw [if_pos hgr]
          rw [hred]
          refine ⟨?_, ?_, ?_, ?_⟩
          · intro m h1 h2
            exfalso
            apply h2
            show lookupTrack (removeTrack s.active_captchas m0) m = none
            rw [lookupTrack_removeTrack]
            by_cases hm : m = m0
            · rw [if_pos hm]
            · rw [if_neg hm]
              exact h1
          · intro m h1 h2
            have h2b : lookupTrack (removeTrack s.active_captchas m0) m = none := h2
            rw [lookupTrack_removeTrack] at h2b
            by_cases hm : m = m0
            · refine Or.inl ?_
              show m ∈ m0 :: s.verified
              rw [hm]
              exact List.mem_cons_self _ _
            · rw [if_neg hm] at h2b
              exact absurd h2b h1
          · intro m h
            exact List.mem_cons_of_mem _ h
          · intro m h
            exact h
        · have hgr2 := Bool.eq_false_iff.mpr hgr
          have hred : (stepEvent cfg s (Event.answer m0 ca m0 ua ids rg)).2 =
              { s with active_captchas := removeTrack s.active_captchas m0 } := by
            rw [hred0]
            unfold process_answer
            rw [if_pos hca]
            unfold grant_role_and_cleanup
            rw [if_neg (by simp [hgr2])]
          rw [hred]
          refine ⟨?_, ?_, ?_, ?_⟩
          · intro m h1 h2
            exfalso
            apply h2
            show lookupTrack (removeTrack s.active_captchas m0) m = none
            rw [lookupTrack_removeTrack]
            by_cases hm : m = m0
            · rw [if_pos hm]
            · rw [if_neg hm]
              exact h1
          · intro m h1 h2
            have h2b : lookupTrack (removeTrack s.active_captchas m0) m = none := h2
            rw [lookupTrack_removeTrack] at h2b
            by_cases hm : m = m0
            · exact Or.inr (Or.inr ⟨ca, ua, ids, rg, by rw [hm], hca, hgr2⟩)
            · rw [if_neg hm] at h2b
              exact absurd h2b h1
          · intro m h
            exact h
          · intro m h
            exact h
      · have hred1 : (stepEvent cfg s (Event.answer m0 ca m0 ua ids rg)).2 =
            (handle_failed_attempt cfg s m0 ids).1 := by
          rw [hred0]
          unfold process_answer
          rw [if_neg hca]
        cases hl : lookupTrack s.active_captchas m0 with
        | none =>
          have hred : (stepEvent cfg s (Event.answer m0 ca m0 ua ids rg)).2 = s := by
            rw [hred1, handle_failed_attempt_none cfg s m0 ids hl]
          rw [hred]
          exact ⟨fun m h1 h2 => absurd h1 h2, fun m h1 h2 => absurd h2 h1,
            fun m h => h, fun m h => h⟩
        | some d =>
          by_cases hmax : cfg.max_attempts ≤ d.attempts + 1
          · have hred : (stepEvent cfg s (Event.answer m0 ca m0 ua ids rg)).2 =
                kick_user { s with active_captchas := modifyTrack s.active_captchas m0 incAttempts } m0 := by
              rw [hred1, handle_failed_attempt_kick cfg s m0 ids d hl hmax]
            rw [hred]
            refine ⟨?_, ?_, ?_, ?_⟩
            · intro m h1 h2
              exfalso
              apply h2
              show lookupTrack (removeTrack (modifyTrack s.active_captchas m0 incAttempts)
                m0) m = none
              rw [lookupTrack_removeTrack]
              by_cases hm : m = m0
              · rw [if_pos hm]
              · rw [if_neg hm, lookupTrack_modifyTrack, if_neg hm]
                exact h1
            · intro m h1 h2
              by_cases hm : m = m0
              · refine Or.inr (Or.inl ?_)
                show m ∈ m0 :: s.kicked
                rw [hm]
                exact List.mem_cons_self _ _
              · exfalso
                have h2b : lookupTrack (removeTrack (modifyTrack s.active_captchas m0
                  incAttempts) m0) m = none := h2
                rw [lookupTrack_removeTrack, if_neg hm, lookupTrack_modifyTrack,
                  if_neg hm] at h2b
                exact h1 h2b
            · intro m h
              exact h
            · intro m h
              exact List.mem_cons_of_mem _ h
          · have hred : (stepEvent cfg s (Event.answer m0 ca m0 ua ids rg)).2 =
                { s with active_captchas := send_captcha_state cfg (modifyTrack s.active_captchas m0 incAttempts) m0 ids } := by
              rw [hred1, handle_failed_attempt_resend cfg s m0 ids d hl (by omega)]
            rw [hred]
            refine ⟨?_, ?_, ?_, ?_⟩
            · intro m h1 h2
              exfalso
              apply h2
              show lookupTrack (send_captcha_state cfg (modifyTrack s.active_captchas m0
                incAttempts) m0 ids) m = none
              rw [lookupTrack_send_captcha_state_none, lookupTrack_modifyTrack_none]
              exact h1
            · intro m h1 h2
              exfalso
              have h2b : lookupTrack (send_captcha_state cfg (modifyTrack
                s.active_captchas m0 incAttempts) m0 ids) m = none := h2
              rw [lookupTrack_send_captcha_state_none, lookupTrack_modifyTrack_none] at h2b
              exact h1 h2b
            · intro m h
              exact h
            · intro m h
              exact h
    · have hred : (stepEvent cfg s (Event.answer m0 ca u ua ids rg)).2 = s := by
        show (dispatch_answer cfg s m0 ca u ua ids rg).1 = s
        rw [dispatch_answer_other cfg s m0 ca u ua ids rg hu]
      rw [hred]
      exact ⟨fun m h1 h2 => absurd h1 h2, fun m h1 h2 => absurd h2 h1,
        fun m h => h, fun m h => h⟩
  | retry_click m0 u now ids =>
    by_cases hu : u = m0
    · rw [hu]
      have hred0 : (stepEvent cfg s (Event.retry_click m0 m0 now ids)).2 =
          handle_dm_retry cfg s m0 now ids := by
        show (dispatch_retry cfg s m0 m0 now ids).1 = _
        rw [dispatch_retry_self]
      cases hl : lookupTrack s.active_captchas m0 with
      | none =>
        have hred : (stepEvent cfg s (Event.retry_click m0 m0 now ids)).2 = s := by
          rw [hred0, handle_dm_retry_none cfg s m0 now ids hl]
        rw [hred]
        exact ⟨fun m h1 h2 => absurd h1 h2, fun m h1 h2 => absurd h2 h1,
          fun m h => h, fun m h => h⟩
      | some d =>
        have hred : (stepEvent cfg s (Event.retry_click m0 m0 now ids)).2 =
            { s with active_captchas := send_captcha_state cfg (modifyTrack s.active_captchas m0 (resetRetry now)) m0 ids } := by
          rw [hred0, handle_dm_retry_some cfg s m0 now ids d hl]
        rw [hred]
        refine ⟨?_, ?_, ?_, ?_⟩
        · intro m h1 h2
          exfalso
          apply h2
          show lookupTrack (send_captcha_state cfg (modifyTrack s.active_captchas m0
            (resetRetry now)) m0 ids) m = none
          rw [lookupTrack_send_captcha_state_none, lookupTrack_modifyTrack_none]
          exact h1
        · intro m h1 h2
          exfalso
          have h2b : lookupTrack (send_captcha_state cfg (modifyTrack s.active_captchas
            m0 (resetRetry now)) m0 ids) m = none := h2
          rw [lookupTrack_send_captcha_state_none, lookupTrack_modifyTrack_none] at h2b
          exact h1 h2b
        · intro m h
          exact h
        · intro m h
          exact h
    · have hred : (stepEvent cfg s (Event.retry_click m0 u now ids)).2 = s := by
        show (dispatch_retry cfg s m0 u now ids).1 = s
        rw [dispatch_retry_other cfg s m0 u now ids hu]
      rw [hred]
      exact ⟨fun m h1 h2 => absurd h1 h2, fun m h1 h2 => absurd h2 h1,
        fun m h => h, fun m h => h⟩
  | kick_tick guilds now =>
    have hac : (stepEvent cfg s (Event.kick_tick guilds now)).2.active_captchas =
        s.active_captchas.filter (fun p => !(doomedIn guilds now s.active_captchas p.1)) := by
      show (kick_timed_out_users guilds now s).active_captchas = _
      rw [kick_timed_out_users_eq_runKick, runKick_active]
    have hver : (stepEvent cfg s (Event.kick_tick guilds now)).2.verified = s.verified := by
      show (kick_timed_out_users guilds now s).verified = _
      rw [kick_timed_out_users_eq_runKick, runKick_verified]
    have hkick : ∀ m : Nat, m ∈ (stepEvent cfg s (Event.kick_tick guilds now)).2.kicked ↔
        m ∈ s.kicked ∨ doomedIn guilds now s.active_captchas m = true := by
      intro m
      show m ∈ (kick_timed_out_users guilds now s).kicked ↔ _
      rw [kick_timed_out_users_eq_runKick]
      exact runKick_kicked guilds now s.active_captchas s m
    refine ⟨?_, ?_, ?_, ?_⟩
    · intro m h1 h2
      exfalso
      apply h2
      rw [hac, lookupTrack_eq_none_iff]
      intro q hq hcon
      rw [lookupTrack_eq_none_iff] at h1
      exact h1 q (List.mem_filter.mp hq).1 hcon
    · intro m h1 h2
      rw [hac, lookupTrack_eq_none_iff] at h2
      rw [lookupTrack_ne_none_iff] at h1
      obtain ⟨q, hq, hqm⟩ := h1
      cases hpred : doomedIn guilds now s.active_captchas q.1 with
      | false =>
        exfalso
        have hqf : q ∈ s.active_captchas.filter
            (fun p => !(doomedIn guilds now s.active_captchas p.1)) :=
          List.mem_filter.mpr ⟨hq, by simp [hpred]⟩
        exact h2 q hqf hqm
      | true =>
        refine Or.inr (Or.inl ((hkick m).mpr (Or.inr ?_)))
        rw [← hqm]
        exact hpred
    · intro m h
      rw [hver]
      exact h
    · intro m h
      exact (hkick m).mpr (Or.inl h)
  | lockdown_cmd ce so dok st nid gm now =>
    obtain ⟨⟨hver, hkick⟩, hpres, htrue⟩ :=
      captchaset_lockdown_flow cfg s ce so dok st nid gm now
    refine ⟨?_, ?_, ?_, ?_⟩
    · intro m h1 h2
      cases hst : st with
      | false => exact Or.inr ⟨ce, so, dok, nid, gm, now, rfl⟩
      | true =>
        exfalso
        apply h2
        show lookupTrack (captchaset_lockdown cfg s ce so dok st nid gm
          now).2.1.active_captchas m = none
        rw [htrue hst]
        exact h1
    · intro m h1 h2
      exact absurd (hpres m h2) h1
    · intro m h
      show m ∈ (captchaset_lockdown cfg s ce so dok st nid gm now).2.1.verified
      rw [hver]
      exact h
    · intro m h
      show m ∈ (captchaset_lockdown cfg s ce so dok st nid gm now).2.1.kicked
      rw [hkick]
      exact h
  | config_cmd newCfg =>
    exact ⟨fun m h1 h2 => absurd h1 h2, fun m h1 h2 => absurd h2 h1,
      fun m h => h, fun m h => h⟩

/-- Settings with no configured success role — the registered default
(captchagate.py line 133) — for the C4 counterexample. -/
def noRoleSettings : GuildSettings := { demoSettings with success_role := none }

/-- C4 counterexample: under the default configuration with no success
role, the tracked member 42 answers the CAPTCHA correctly and leaves
tracking, yet no role grant is requested (grant_role_and_cleanup skips the
add_roles request, captchagate.py lines 223-233) and no kick happens —
refuting the claim as stated, that a member leaves tracking only by being
verified with the success role granted or by being kicked. -/
theorem C4_counterexample :
    lookupTrack demoFlow.active_captchas 42 ≠ none
    ∧ lookupTrack (stepEvent noRoleSettings demoFlow
        (Event.answer 42 ("Cat") 42 ("Cat") demoIds true)).2.active_captchas 42 = none
    ∧ ¬ 42 ∈ (stepEvent noRoleSettings demoFlow
        (Event.answer 42 ("Cat") 42 ("Cat") demoIds true)).2.verified
    ∧ ¬ 42 ∈ (stepEvent noRoleSettings demoFlow
        (Event.answer 42 ("Cat") 42 ("Cat") demoIds true)).2.kicked :=
  ⟨by decide, rfl, by decide, by decide⟩

/-- C4 witness: with a configured, grantable success role the tracked
member 42 answers the correct option, leaves tracking and is recorded
verified. -/
theorem C4_linear_progression_witness :
    42 ∈ (stepEvent demoSettings demoFlow
        (Event.answer 42 ("Cat") 42 ("Cat") demoIds true)).2.verified
    ∨ 42 ∈ (stepEvent demoSettings demoFlow
        (Event.answer 42 ("Cat") 42 ("Cat") demoIds true)).2.kicked
    ∨ (∃ ca ua ids rg,
        Event.answer 42 ("Cat") 42 ("Cat") demoIds true =
          Event.answer 42 ca 42 ua ids rg ∧ ua = ca
        ∧ (demoSettings.success_role.isSome && rg) = false) :=
  (C4_linear_progression demoSettings demoFlow
      (Event.answer 42 ("Cat") 42 ("Cat") demoIds true)).2.1 42 (by decide) rfl

end CaptchaGate
